import Mathlib

/-!
Verification development for the Mother Margaret school backend.

This file gives a shallow embedding of the identity and enrollment core of
the backend (src/server.js, src/setup.js and the unnamed server variant):
the `users` and `students` tables with their UNIQUE constraints, the
`GET /api/init` privileged-account seeder, the `POST /api/auth/login`
handler, and the `POST /api/students/register` enrollment handler, the
latter both as a sequential function and as a small-step machine whose
steps are the atomic database calls, so that interleavings of two
concurrent requests can be analysed.

External collaborators are idealized at their contract boundary:
the bcryptjs credential store is modelled as an injective hash with
verification by recomputation, PostgreSQL as a list-backed store whose
insert operations enforce the UNIQUE constraints atomically, and the
sources of randomness and time of the enrollment handler as explicit
parameters.
-/

/-- One entry of the hard-coded privileged roster of `/api/init`
(identical in src/server.js, src/setup.js and the unnamed variant). -/
structure Admin where
  username : String
  password : String
deriving DecidableEq, Repr

/-- The fixed roster of seven initial administrators (src/server.js lines 288 to 296). -/
def initialAdmins : List Admin :=
  [ ⟨"Admin1", "****$****#+1"⟩,
    ⟨"Admin2", "****$****#+2"⟩,
    ⟨"Admin3", "****$****#+3"⟩,
    ⟨"Admin4", "****$****#+4"⟩,
    ⟨"Admin5", "****$****#+5"⟩,
    ⟨"Admin6", "****$****#+6"⟩,
    ⟨"Admin7", "****$****#+7"⟩ ]

/-- Idealized model of `bcrypt.hash(secret, cost)`: the digest is an opaque
string determined by the secret, with the salt abstracted away. -/
def bhash (cost : Nat) (secret : String) : String :=
  "$2b$" ++ toString cost ++ "$" ++ secret

/-- Idealized model of `bcrypt.compare(secret, digest)`: verification by
recomputation of the ideal digest (the codebase always hashes at cost 10). -/
def bcompare (secret digest : String) : Bool :=
  digest == bhash 10 secret

/-- A row of the `users` table (src/server.js lines 189 to 206). -/
structure User where
  id : Nat
  userId : String
  email : String
  phone : String
  password : String
  firstName : String
  lastName : String
  role : String
  isActive : Bool
  isInitialAdmin : Bool
  requiresPasswordChange : Bool
  lastLogin : Option String
deriving DecidableEq, Repr

/-- A row of the `students` table (src/server.js lines 209 to 231),
restricted to the columns the enrollment handler writes. -/
structure Student where
  studentId : String
  firstName : String
  lastName : String
  dateOfBirth : String
  gender : String
  classLevel : String
  parentId : Nat
  schoolAccountNumber : String
  address : String
deriving DecidableEq, Repr

/-- The database state: the `users` and `students` tables together with the
next value of the SERIAL `users.id` column. -/
structure Store where
  users : List User
  students : List Student
  nextUid : Nat
deriving DecidableEq, Repr

def emptyStore : Store := ⟨[], [], 1⟩

/-- Errors raised by the store; PostgreSQL unique violations carry a message
containing the text `duplicate key value violates unique constraint`. -/
inductive DbError where
  | duplicateKey (constraintName : String)
  | otherError (message : String)
deriving DecidableEq, Repr

/-- `INSERT INTO users ... RETURNING id` under the UNIQUE constraints on
`email` and `user_id`: fails with a duplicate-key error when either key is
already present, otherwise appends the row with the next SERIAL id. -/
def insertUser (st : Store) (u : User) : Except DbError (Store × Nat) :=
  if st.users.any (fun v => v.email = u.email) then
    .error (.duplicateKey "users_email_key")
  else if st.users.any (fun v => v.userId = u.userId) then
    .error (.duplicateKey "users_user_id_key")
  else
    .ok (⟨st.users ++ [{ u with id := st.nextUid }], st.students, st.nextUid + 1⟩,
         st.nextUid)

/-- `INSERT INTO users ... ON CONFLICT (email) DO NOTHING` as used by the
`/api/init` seeder: an email conflict is silently skipped, while a conflict
on the other UNIQUE column `user_id` still raises. -/
def insertUserSkipEmailConflict (st : Store) (u : User) : Except DbError Store :=
  if st.users.any (fun v => v.email = u.email) then
    .ok st
  else if st.users.any (fun v => v.userId = u.userId) then
    .error (.duplicateKey "users_user_id_key")
  else
    .ok ⟨st.users ++ [{ u with id := st.nextUid }], st.students, st.nextUid + 1⟩

/-- `INSERT INTO students ...` under the UNIQUE constraints on `student_id`
and `school_account_number` and the foreign key `parent_id REFERENCES users(id)`. -/
def insertStudent (st : Store) (s : Student) : Except DbError Store :=
  if st.students.any (fun t => t.studentId = s.studentId) then
    .error (.duplicateKey "students_student_id_key")
  else if st.students.any (fun t => t.schoolAccountNumber = s.schoolAccountNumber) then
    .error (.duplicateKey "students_school_account_number_key")
  else if st.users.any (fun v => v.id = s.parentId) then
    .ok ⟨st.users, st.students ++ [s], st.nextUid⟩
  else
    .error (.otherError "students_parent_id_fkey")

/-- `SELECT * FROM users WHERE email = $1 AND is_active = true` (login query). -/
def findActiveByEmail (st : Store) (email : String) : Option User :=
  st.users.find? (fun u => u.email = email && u.isActive)

/-- `SELECT id FROM users WHERE email = $1 AND role = 'parent'` (enrollment lookup). -/
def findParentByEmail (st : Store) (email : String) : Option User :=
  st.users.find? (fun u => u.email = email && u.role = "parent")

/-- `UPDATE users SET last_login = CURRENT_TIMESTAMP WHERE id = $1`. -/
def touchLastLogin (st : Store) (uid : Nat) (now : String) : Store :=
  ⟨st.users.map (fun u => if u.id = uid then { u with lastLogin := some now } else u),
   st.students, st.nextUid⟩

-- ===================== Bootstrap seeder (GET /api/init) =====================

/-- Character-wise model of JavaScript `String.prototype.toLowerCase` on the
ASCII identifiers of this codebase. -/
def lowerString (s : String) : String := String.mk (s.toList.map Char.toLower)

/-- Character-wise model of JavaScript `String.prototype.toUpperCase` on the
ASCII identifiers of this codebase. -/
def upperString (s : String) : String := String.mk (s.toList.map Char.toUpper)

/-- The well-known seeded user identifier for a roster entry. -/
def adminUserId (a : Admin) : String := "MMJS-" ++ a.username

/-- The well-known seeded email for a roster entry. -/
def adminEmail (a : Admin) : String := lowerString a.username ++ "@mothermargaret.ac.ug"

/-- The row the seeder inserts for a roster entry (src/server.js lines 305 to 319);
the `id` field is a placeholder assigned by the store at insertion. -/
def seededUser (a : Admin) : User :=
  { id := 0
  , userId := adminUserId a
  , email := adminEmail a
  , phone := ""
  , password := bhash 10 a.password
  , firstName := "Admin"
  , lastName := a.username
  , role := "admin"
  , isActive := true
  , isInitialAdmin := true
  , requiresPasswordChange := true
  , lastLogin := none }

/-- One entry of the `createdAdmins` accumulator of `/api/init`
(src/server.js lines 321 to 326); note that it carries the plaintext password. -/
structure CreatedAdmin where
  username : String
  email : String
  password : String
  userId : String
deriving DecidableEq, Repr

/-- One iteration of the `/api/init` seeding loop (src/server.js lines 300 to 330):
try the insert with `ON CONFLICT (email) DO NOTHING`; when the call does not
throw, push the roster entry with its plaintext password onto `createdAdmins`;
a thrown error is caught and only logged. -/
def seedOne (acc : Store × List CreatedAdmin) (a : Admin) : Store × List CreatedAdmin :=
  match insertUserSkipEmailConflict acc.1 (seededUser a) with
  | .ok st => (st, acc.2 ++ [⟨a.username, adminEmail a, a.password, adminUserId a⟩])
  | .error _ => (acc.1, acc.2)

/-- The whole `/api/init` seeding loop: visits the roster in order and returns
the updated store together with the `admin_accounts` list of the response. -/
def seedRun (st : Store) : Store × List CreatedAdmin :=
  initialAdmins.foldl seedOne (st, [])

/-- The store after one `/api/init` seeding run. -/
def seedStore (st : Store) : Store := (seedRun st).1

/-- The store after `n` sequential `/api/init` seeding runs. -/
def seedRuns : Nat → Store → Store
  | 0, st => st
  | n + 1, st => seedRuns n (seedStore st)

-- ===================== Login (POST /api/auth/login) =====================

/-- The `user` object of a successful login response (src/server.js lines 419 to 428). -/
structure LoginUser where
  id : String
  email : String
  firstName : String
  lastName : String
  role : String
  requiresPasswordChange : Bool
  isInitialAdmin : Bool
deriving DecidableEq, Repr

/-- The JWT payload signed on successful login (src/server.js lines 403 to 413);
signature and expiry are handled by the external jsonwebtoken collaborator. -/
structure Token where
  userId : String
  email : String
  role : String
  firstName : String
  lastName : String
deriving DecidableEq, Repr

/-- Response of the login handler: an error status with its message body, or
the success payload. -/
inductive LoginResp where
  | err (status : Nat) (message : String)
  | ok (user : LoginUser) (token : Token)
deriving DecidableEq, Repr

/-- The `POST /api/auth/login` handler (src/server.js lines 356 to 438) on a
connected database. The JavaScript truthiness test on the request fields is
modelled by treating the empty string as a missing field. -/
def loginHandler (st : Store) (email password now : String) : Store × LoginResp :=
  if email = "" ∨ password = "" then
    (st, .err 400 "Email and password are required")
  else
    match findActiveByEmail st email with
    | none => (st, .err 401 "Invalid email or password")
    | some user =>
      if bcompare password user.password then
        (touchLastLogin st user.id now,
         .ok { id := user.userId
             , email := user.email
             , firstName := user.firstName
             , lastName := user.lastName
             , role := user.role
             , requiresPasswordChange := user.requiresPasswordChange
             , isInitialAdmin := user.isInitialAdmin }
            { userId := user.userId
            , email := user.email
            , role := user.role
            , firstName := user.firstName
            , lastName := user.lastName })
      else
        (st, .err 401 "Invalid email or password")

/-- The login handler of the unnamed server variant (src/unnamed/part_000
lines 189 to 228): same active-filtered lookup, both failure branches answer
401 with the body `Invalid credentials`. -/
def loginHandlerV1 (st : Store) (email password : String) : LoginResp :=
  match findActiveByEmail st email with
  | none => .err 401 "Invalid credentials"
  | some user =>
    if bcompare password user.password then
      .ok { id := user.userId
          , email := user.email
          , firstName := user.firstName
          , lastName := user.lastName
          , role := user.role
          , requiresPasswordChange := user.requiresPasswordChange
          , isInitialAdmin := user.isInitialAdmin }
         { userId := user.userId
         , email := user.email
         , role := user.role
         , firstName := user.firstName
         , lastName := user.lastName }
    else
      .err 401 "Invalid credentials"

-- ============== Enrollment (POST /api/students/register) ==============

/-- The request body fields read by the enrollment handler
(src/server.js lines 442 to 453); as in the login handler, the JavaScript
truthiness test on required fields is modelled by the empty string. -/
structure RegInputs where
  firstName : String
  lastName : String
  dateOfBirth : String
  gender : String
  classLevel : String
  parentEmail : String
  parentPhone : String
  address : String
deriving DecidableEq, Repr

/-- The sources of time and randomness consumed by the handler, made
explicit: the current year and the random three-digit number of the student
id, the trailing digits of `Date.now()` used for the account number and the
parent user id, and the random temporary parent password. -/
structure RegEnv where
  year : Nat
  rnd : Nat
  accDigits : String
  parentDigits : String
  tempPassword : String
deriving DecidableEq, Repr

/-- `classLevel.toUpperCase().replace(/[^A-Z0-9]/g, "")` (src/server.js line 474). -/
def classCode (classLevel : String) : String :=
  String.mk ((upperString classLevel).toList.filter
    (fun c => (c.toNat ≥ 65 ∧ c.toNat ≤ 90) ∨ (c.toNat ≥ 48 ∧ c.toNat ≤ 57)))

/-- The generated student identifier (src/server.js lines 473 to 476). -/
def studentIdOf (classLevel : String) (env : RegEnv) : String :=
  "MMJS-" ++ classCode classLevel ++ "-" ++ toString env.year ++ "-" ++ toString env.rnd

/-- The generated school account number (src/server.js line 479). -/
def schoolAccountNumberOf (env : RegEnv) : String :=
  "MMJS-ACC-" ++ env.accDigits

/-- The generated parent user identifier (src/server.js line 494). -/
def parentUserIdOf (env : RegEnv) : String :=
  "MMJS-PARENT-" ++ env.parentDigits

/-- The required-field validation of the handler (src/server.js line 456). -/
def validReg (inp : RegInputs) : Bool :=
  inp.firstName ≠ "" && inp.lastName ≠ "" && inp.dateOfBirth ≠ "" &&
  inp.classLevel ≠ "" && inp.parentEmail ≠ ""

/-- The `data` object of a successful registration response
(src/server.js lines 541 to 553). -/
structure RegData where
  studentId : String
  schoolAccountNumber : String
  studentName : String
  classLevel : String
  parentId : Nat
  parentEmail : String
  parentAccountCreated : Bool
deriving DecidableEq, Repr

/-- Response of the enrollment handler: 201 with the data object, or an
error status with its message. -/
inductive RegResp where
  | created (data : RegData)
  | err (status : Nat) (message : String)
deriving DecidableEq, Repr

/-- The catch block of the handler (src/server.js lines 562 to 579): an error
whose message contains `duplicate key` becomes a 409 conflict response, any
other error a 500. -/
def regCatch (e : DbError) : RegResp :=
  match e with
  | .duplicateKey _ => .err 409 "Student ID already exists. Please try again."
  | .otherError m => .err 500 m

/-- The 409 conflict response produced by the duplicate-key catch branch. -/
def conflictResp : RegResp := regCatch (.duplicateKey "")

/-- A request to the enrollment handler with its generated values already
drawn: the inputs plus the derived identifiers and the hashed temporary
parent password. -/
structure Req where
  inp : RegInputs
  studentId : String
  schoolAccountNumber : String
  parentUserId : String
  hashedTempPassword : String
deriving DecidableEq, Repr

/-- Precompute the generated values of a request from its entropy. -/
def mkReq (inp : RegInputs) (env : RegEnv) : Req :=
  { inp := inp
  , studentId := studentIdOf inp.classLevel env
  , schoolAccountNumber := schoolAccountNumberOf env
  , parentUserId := parentUserIdOf env
  , hashedTempPassword := bhash 10 env.tempPassword }

/-- The parent row inserted by the auto-creation branch
(src/server.js lines 496 to 510); the `id` is assigned by the store. -/
def parentUser (r : Req) : User :=
  { id := 0
  , userId := r.parentUserId
  , email := r.inp.parentEmail
  , phone := r.inp.parentPhone
  , password := r.hashedTempPassword
  , firstName := "Parent"
  , lastName := "Account"
  , role := "parent"
  , isActive := true
  , isInitialAdmin := false
  , requiresPasswordChange := false
  , lastLogin := none }

/-- The student row inserted by the handler (src/server.js lines 519 to 539). -/
def studentRow (r : Req) (parentId : Nat) : Student :=
  { studentId := r.studentId
  , firstName := r.inp.firstName
  , lastName := r.inp.lastName
  , dateOfBirth := r.inp.dateOfBirth
  , gender := r.inp.gender
  , classLevel := r.inp.classLevel
  , parentId := parentId
  , schoolAccountNumber := r.schoolAccountNumber
  , address := r.inp.address }

/-- The successful 201 response of the handler for a given parent id. -/
def createdResp (r : Req) (parentId : Nat) (parentCreated : Bool) : RegResp :=
  .created
    { studentId := r.studentId
    , schoolAccountNumber := r.schoolAccountNumber
    , studentName := r.inp.firstName ++ " " ++ r.inp.lastName
    , classLevel := r.inp.classLevel
    , parentId := parentId
    , parentEmail := r.inp.parentEmail
    , parentAccountCreated := parentCreated }

/-- The control state of an in-flight enrollment request, one constructor
per suspension point between the atomic database calls of the handler:
about to run the parent lookup, about to insert the parent row, about to
insert the student row, or finished with a response. -/
inductive ReqPhase where
  | lookup
  | createParent
  | insertDependent (parentId : Nat) (parentCreated : Bool)
  | finished (resp : RegResp)
deriving DecidableEq, Repr

/-- One atomic database step of the enrollment handler
(src/server.js lines 482 to 579): the parent lookup branches on existence,
the parent insert either yields the new id or is caught by the catch block,
and the student insert either completes the request or is caught likewise. -/
def regStep (st : Store) (r : Req) : ReqPhase → Store × ReqPhase
  | .lookup =>
    match findParentByEmail st r.inp.parentEmail with
    | some p => (st, .insertDependent p.id false)
    | none => (st, .createParent)
  | .createParent =>
    match insertUser st (parentUser r) with
    | .ok (st', pid) => (st', .insertDependent pid true)
    | .error e => (st, .finished (regCatch e))
  | .insertDependent pid created =>
    match insertStudent st (studentRow r pid) with
    | .ok st' => (st', .finished (createdResp r pid created))
    | .error e => (st, .finished (regCatch e))
  | .finished resp => (st, .finished resp)

/-- Iterate the request machine a fixed number of steps. -/
def regStepN : Nat → Store → Req → ReqPhase → Store × ReqPhase
  | 0, st, _, ph => (st, ph)
  | n + 1, st, r, ph =>
    let c := regStep st r ph
    regStepN n c.1 r c.2

/-- The sequential `POST /api/students/register` handler: validation, then
the three database steps run to completion (three steps always reach the
finished phase; the fallback branch is dead). -/
def registerHandler (st : Store) (inp : RegInputs) (env : RegEnv) : Store × RegResp :=
  if validReg inp then
    match regStepN 3 st (mkReq inp env) .lookup with
    | (st', .finished resp) => (st', resp)
    | (st', _) => (st', .err 500 "unreachable")
  else
    (st, .err 400 "Missing required fields: firstName, lastName, dateOfBirth, classLevel, parentEmail")

-- ===== Interleaving semantics for two concurrent enrollment requests =====

/-- A configuration of two concurrent enrollment requests over one shared
store. -/
structure Config where
  store : Store
  ph1 : ReqPhase
  ph2 : ReqPhase
deriving DecidableEq, Repr

/-- One scheduler step: `true` lets the first request perform its next
atomic database call, `false` the second. -/
def schedStep (r1 r2 : Req) (c : Config) (b : Bool) : Config :=
  if b then
    let s := regStep c.store r1 c.ph1
    ⟨s.1, s.2, c.ph2⟩
  else
    let s := regStep c.store r2 c.ph2
    ⟨s.1, c.ph1, s.2⟩

/-- Run two concurrent requests under a schedule: the list says, step by
step, which request performs its next atomic database call. -/
def schedRun (r1 r2 : Req) (c : Config) (sched : List Bool) : Config :=
  sched.foldl (schedStep r1 r2) c

-- ===================== Startup and setup log output =====================

/-- The banner separator `'='.repeat(60)`. -/
def bannerLine : String := String.mk (List.replicate 60 (Char.ofNat 61))

/-- The lines written to the application log by the server startup callback
(src/server.js lines 676 to 706), parameterized by the values read from the
environment. Note the credential block lines 693 to 700. -/
def startupLogLines (port env schoolName : String) : List String :=
  [ bannerLine
  , "🚀 MOTHER MARGARET SCHOOL BACKEND - COMPLETE SYSTEM"
  , bannerLine
  , "✅ Server running on port " ++ port
  , "✅ Environment: " ++ env
  , "✅ School: " ++ schoolName
  , bannerLine
  , "📋 AVAILABLE ENDPOINTS:"
  , "   • GET  /                    - API information"
  , "   • GET  /health              - Health check"
  , "   • GET  /api/school/info     - School information with WhatsApp links"
  , "   • GET  /api/init            - Initialize system (creates 7 admins)"
  , "   • POST /api/auth/login      - User login"
  , "   • POST /api/students/register - Register new student"
  , "   • GET  /api/portals         - Portal information"
  , bannerLine
  , "👑 INITIAL ADMIN CREDENTIALS (after /api/init):"
  , "   • Admin1: ****$****#+1"
  , "   • Admin2: ****$****#+2"
  , "   • Admin3: ****$****#+3"
  , "   • Admin4: ****$****#+4"
  , "   • Admin5: ****$****#+5"
  , "   • Admin6: ****$****#+6"
  , "   • Admin7: ****$****#+7"
  , bannerLine
  , "📞 School Contacts: 0708 840 282 | 0704 702 301 | 0747 677 562"
  , "📧 Email: mothermargaretjuniorschools.ug@gmail.com"
  , "📍 Location: Namuyenje, Mukono, Uganda (Opposite St. Paul Church)"
  , bannerLine ]

/-- The credential block printed by the setup script
(src/setup.js lines 308 to 315). -/
def setupCredentialLines : List String :=
  [ "📋 INITIAL ADMIN CREDENTIALS:"
  , String.mk (List.replicate 29 (Char.ofNat 61)) ] ++
  initialAdmins.flatMap (fun a =>
    [ "👑 " ++ a.username
    , "   Email: " ++ adminEmail a
    , "   Password: " ++ a.password
    , "" ])

-- ===================== Helper definitions and lemmas =====================

/-- The list of the seven well-known seeded user identifiers. -/
def seededIds : List String := initialAdmins.map adminUserId

/-- Number of stored accounts carrying a given user identifier. -/
def countUserId (st : Store) (uid : String) : Nat :=
  st.users.countP (fun u => u.userId = uid)

/-- Number of stored accounts carrying a given email. -/
def countEmail (st : Store) (e : String) : Nat :=
  st.users.countP (fun u => u.email = e)

/-- Whether a login response is a success whose profile carries the
must-rotate-secret flag. -/
def isRotateLogin : LoginResp → Bool
  | .ok u _ => u.requiresPasswordChange
  | .err _ _ => false

theorem users_any_email_false {l : List User} {e : String}
    (h : ∀ u ∈ l, u.email ≠ e) : (l.any fun v => v.email = e) = false := by
  simp only [List.any_eq_false, decide_eq_true_eq]
  exact h

theorem users_any_userId_false {l : List User} {x : String}
    (h : ∀ u ∈ l, u.userId ≠ x) : (l.any fun v => v.userId = x) = false := by
  simp only [List.any_eq_false, decide_eq_true_eq]
  exact h

theorem users_any_email_true {l : List User} {e : String}
    (h : ∃ u ∈ l, u.email = e) : (l.any fun v => v.email = e) = true := by
  simp only [List.any_eq_true, decide_eq_true_eq]
  exact h

theorem countP_eq_one_of_pairwise {l : List User} (f : User → String) {x : String}
    (hpw : l.Pairwise (fun u v => f u ≠ f v)) {u0 : User}
    (hmem : u0 ∈ l) (hx : f u0 = x) :
    (l.countP fun u => f u = x) = 1 := by
  induction l with
  | nil => cases hmem
  | cons a t ih =>
    rcases List.pairwise_cons.mp hpw with ⟨ha, ht⟩
    rcases List.mem_cons.mp hmem with rfl | hmemt
    · have hz : (t.countP fun u => f u = x) = 0 := by
        rw [List.countP_eq_zero]
        intro v hv
        simp only [decide_eq_true_eq]
        exact fun hfx => (ha v hv) (hx.trans hfx.symm)
      simp [List.countP_cons, hz, hx]
    · have hax : ¬ f a = x := fun hfa => (ha u0 hmemt) (hfa.trans hx.symm)
      have := ih ht hmemt
      simp [List.countP_cons, this, hax]

theorem countP_email_eq_zero {l : List User} {e : String}
    (h : ∀ u ∈ l, u.email ≠ e) : (l.countP fun u => u.email = e) = 0 := by
  rw [List.countP_eq_zero]
  intro v hv
  simp only [decide_eq_true_eq]
  exact h v hv

theorem find?_append_left_none {α} {p : α → Bool} {l₁ l₂ : List α}
    (h : l₁.find? p = none) : (l₁ ++ l₂).find? p = l₂.find? p := by
  induction l₁ with
  | nil => rfl
  | cons a t ih =>
    rcases hpa : p a with hv | hv
    · simp only [List.cons_append, List.find?_cons, hpa]
      exact ih (by simpa [List.find?_cons, hpa] using h)
    · simp [List.find?_cons, hpa] at h

-- ===================== Claim C8 =====================

/-- Claim C8: after a first seeder run on an empty store, the store contains
7 active seeded accounts each flagged as requiring secret rotation, and for
each seeded account, login with its email and its initial secret succeeds
(the stored digest verifies against the original secret) and the returned
profile carries the must-rotate-secret flag set to true. -/
theorem seed_then_login_roundtrip :
    (seedStore emptyStore).users.length = 7 ∧
    ((seedStore emptyStore).users.all fun u =>
      u.isActive && u.requiresPasswordChange) = true ∧
    (initialAdmins.all fun a =>
      isRotateLogin
        (loginHandler (seedStore emptyStore) (adminEmail a) a.password "now").2) = true :=
  ⟨by decide, by decide, by decide⟩

-- ===================== Claim C5 =====================

/-- Claim C5 is violated by the code: on a no-op re-run of the seeder (the
second run below changes nothing in the store), the returned
`admin_accounts` list still contains all seven roster entries, each carrying
its plaintext password, because `createdAdmins.push` runs even when the
insert was skipped by `ON CONFLICT (email) DO NOTHING`. -/
theorem seeder_rerun_returns_plaintext :
    (seedRun (seedStore emptyStore)).1 = seedStore emptyStore ∧
    ((seedRun (seedStore emptyStore)).2.map fun c => c.password) =
      initialAdmins.map (fun a => a.password) ∧
    ((seedRun (seedStore emptyStore)).2.length = 7) :=
  ⟨by decide, by decide, by decide⟩

-- ===================== Claim C9 =====================

/-- Claim C9: failing login attempts are indistinguishable across causes.
Whether the email matches no stored account, the account is inactive (both
make the active-filtered lookup return nothing), or the password comparison
fails, the handler answers 401 with the body `Invalid email or password`;
the unnamed server variant likewise answers 401 with `Invalid credentials`
in all of these cases, so within each handler every failing pair of
attempts receives the same status code and the same message body. -/
theorem login_failures_uniform (st : Store) (e p now : String)
    (he : e ≠ "") (hp : p ≠ "")
    (h : (∀ u ∈ st.users, ¬(u.email = e ∧ u.isActive = true)) ∨
         (∃ u, findActiveByEmail st e = some u ∧ bcompare p u.password = false)) :
    (loginHandler st e p now).2 = .err 401 "Invalid email or password" ∧
    loginHandlerV1 st e p = .err 401 "Invalid credentials" := by
  have hnone : (∀ u ∈ st.users, ¬(u.email = e ∧ u.isActive = true)) →
      findActiveByEmail st e = none := by
    intro hall
    unfold findActiveByEmail
    rw [List.find?_eq_none]
    intro u hu
    simp only [Bool.and_eq_true, decide_eq_true_eq]
    exact hall u hu
  rcases h with hall | ⟨u, hfind, hcomp⟩
  · have hn := hnone hall
    constructor
    · simp [loginHandler, he, hp, hn]
    · simp [loginHandlerV1, hn]
  · constructor
    · simp [loginHandler, he, hp, hfind, hcomp]
    · simp [loginHandlerV1, hfind, hcomp]

/-- Witness for C9: a concrete failing login on the empty store. -/
theorem login_failures_uniform_witness :
    (loginHandler emptyStore "noone@mothermargaret.ac.ug" "guess" "now").2 =
      .err 401 "Invalid email or password" ∧
    loginHandlerV1 emptyStore "noone@mothermargaret.ac.ug" "guess" =
      .err 401 "Invalid credentials" :=
  login_failures_uniform emptyStore "noone@mothermargaret.ac.ug" "guess" "now"
    (by decide) (by decide) (Or.inl (by intro u hu; cases hu))

-- ===================== Claim C6 =====================

/-- Claim C6 is violated by the code: the startup banner writes the
plaintext initial secret of a seeded account to the application log on
every server start, so seeded secrets are disclosed outside the seeder's
return value. -/
theorem startup_log_discloses_secret_cx :
    ∃ line ∈ startupLogLines "10000" "development" "Mother Margaret Junior School",
      ∃ a ∈ initialAdmins, ∃ p q, line = p ++ a.password ++ q :=
  ⟨"   • Admin1: ****$****#+1", by decide,
   ⟨"Admin1", "****$****#+1"⟩, by decide,
   "   • Admin1: ", "", rfl⟩

/-- Claim C6, amended: the program does write plaintext seeded secrets to
general-purpose log lines. Every roster password appears verbatim in a
startup log line of the server and in a credential line of the setup
script; disclosure of the initial secrets is therefore not limited to the
seeder's first-run return value. -/
theorem every_seed_secret_logged (port env schoolName : String)
    (a : Admin) (ha : a ∈ initialAdmins) :
    (∃ line ∈ startupLogLines port env schoolName, ∃ p q, line = p ++ a.password ++ q) ∧
    (∃ line ∈ setupCredentialLines, ∃ p q, line = p ++ a.password ++ q) := by
  have hsetup : ∀ b ∈ initialAdmins,
      ("   Password: " ++ b.password) ∈ setupCredentialLines := by decide
  refine ⟨?_, "   Password: " ++ a.password, hsetup a ha, "   Password: ", "", by simp⟩
  fin_cases ha
  · exact ⟨"   • Admin1: ****$****#+1", by simp [startupLogLines], "   • Admin1: ", "", rfl⟩
  · exact ⟨"   • Admin2: ****$****#+2", by simp [startupLogLines], "   • Admin2: ", "", rfl⟩
  · exact ⟨"   • Admin3: ****$****#+3", by simp [startupLogLines], "   • Admin3: ", "", rfl⟩
  · exact ⟨"   • Admin4: ****$****#+4", by simp [startupLogLines], "   • Admin4: ", "", rfl⟩
  · exact ⟨"   • Admin5: ****$****#+5", by simp [startupLogLines], "   • Admin5: ", "", rfl⟩
  · exact ⟨"   • Admin6: ****$****#+6", by simp [startupLogLines], "   • Admin6: ", "", rfl⟩
  · exact ⟨"   • Admin7: ****$****#+7", by simp [startupLogLines], "   • Admin7: ", "", rfl⟩

/-- Witness for the amended C6 at the first roster entry. -/
theorem every_seed_secret_logged_witness :
    (∃ line ∈ startupLogLines "10000" "development" "Mother Margaret Junior School",
       ∃ p q, line = p ++ ("****$****#+1" : String) ++ q) ∧
    (∃ line ∈ setupCredentialLines, ∃ p q, line = p ++ ("****$****#+1" : String) ++ q) :=
  every_seed_secret_logged "10000" "development" "Mother Margaret Junior School"
    ⟨"Admin1", "****$****#+1"⟩ (by decide)

-- ===================== Claim C1: seeder idempotence =====================

/-- The uniqueness invariant the `users` table constraints maintain:
pairwise distinct emails and user identifiers. -/
def UniqStore (st : Store) : Prop :=
  st.users.Pairwise (fun u v => u.email ≠ v.email ∧ u.userId ≠ v.userId)

/-- A store is clean for a roster fragment when any stored account bearing a
seeded email or a seeded user identifier is the matching seeded account
carrying both; an account pairing a seeded email with a foreign identifier
(or conversely) makes the ON CONFLICT seeding skip or fail that entry. -/
def SeedClean (st : Store) (l : List Admin) : Prop :=
  ∀ a ∈ l,
    (∀ u ∈ st.users, u.email = adminEmail a → u.userId = adminUserId a) ∧
    (∀ u ∈ st.users, u.userId = adminUserId a → u.email = adminEmail a)

/-- The seeded emails and identifiers of a roster fragment are pairwise
distinct. -/
def AdminsDistinct (l : List Admin) : Prop :=
  l.Pairwise (fun a b => adminEmail a ≠ adminEmail b ∧ adminUserId a ≠ adminUserId b)

theorem seededUser_email (a : Admin) : (seededUser a).email = adminEmail a := rfl

theorem seededUser_userId (a : Admin) : (seededUser a).userId = adminUserId a := rfl

theorem seedOne_skip {st : Store} {acc : List CreatedAdmin} {a : Admin}
    (h : (st.users.any fun v => v.email = adminEmail a) = true) :
    seedOne (st, acc) a =
      (st, acc ++ [⟨a.username, adminEmail a, a.password, adminUserId a⟩]) := by
  simp [seedOne, insertUserSkipEmailConflict, seededUser_email, h]

theorem seedOne_insert {st : Store} {acc : List CreatedAdmin} {a : Admin}
    (he : (st.users.any fun v => v.email = adminEmail a) = false)
    (hi : (st.users.any fun v => v.userId = adminUserId a) = false) :
    seedOne (st, acc) a =
      (⟨st.users ++ [{ seededUser a with id := st.nextUid }], st.students, st.nextUid + 1⟩,
       acc ++ [⟨a.username, adminEmail a, a.password, adminUserId a⟩]) := by
  simp [seedOne, insertUserSkipEmailConflict, seededUser_email, seededUser_userId, he, hi]

theorem seedFold_spec : ∀ (l : List Admin) (st : Store) (acc : List CreatedAdmin),
    UniqStore st → SeedClean st l → AdminsDistinct l →
    (∀ u ∈ st.users, u ∈ (List.foldl seedOne (st, acc) l).1.users) ∧
    (∀ a ∈ l, countUserId (List.foldl seedOne (st, acc) l).1 (adminUserId a) = 1) ∧
    (∀ a ∈ l, ∃ u ∈ (List.foldl seedOne (st, acc) l).1.users, u.email = adminEmail a) ∧
    UniqStore (List.foldl seedOne (st, acc) l).1 ∧
    (∃ ext, (List.foldl seedOne (st, acc) l).1.users = st.users ++ ext ∧
      ∀ u ∈ ext, ∃ a ∈ l, u.userId = adminUserId a) := by
  intro l
  induction l with
  | nil =>
    intro st acc hU _ _
    refine ⟨fun u hu => hu, by simp, by simp, hU, [], by simp, by simp⟩
  | cons a t ih =>
    intro st acc hU hC hD
    have hDa : ∀ b ∈ t, adminEmail a ≠ adminEmail b ∧ adminUserId a ≠ adminUserId b :=
      (List.pairwise_cons.mp hD).1
    have hDt : AdminsDistinct t := (List.pairwise_cons.mp hD).2
    have hCa := hC a (List.mem_cons_self a t)
    have hCt : SeedClean st t := fun b hb => hC b (List.mem_cons_of_mem _ hb)
    have hidPW : st.users.Pairwise (fun u v => u.userId ≠ v.userId) :=
      hU.imp (fun h => h.2)
    by_cases hem : (st.users.any fun v => v.email = adminEmail a) = true
    · -- the seeded email is already present: ON CONFLICT skips the insert
      obtain ⟨u0, hu0mem, hu0em⟩ : ∃ u ∈ st.users, u.email = adminEmail a := by
        simpa [List.any_eq_true, decide_eq_true_eq] using hem
      have hu0id : u0.userId = adminUserId a := hCa.1 u0 hu0mem hu0em
      rw [List.foldl_cons, seedOne_skip hem]
      obtain ⟨ih1, ih2, ih3, ih4, ext, hext, hextid⟩ := ih st _ hU hCt hDt
      refine ⟨ih1, ?_, ?_, ih4, ext, hext, ?_⟩
      · intro b hb
        rcases List.mem_cons.mp hb with rfl | hbt
        · unfold countUserId
          rw [hext, List.countP_append]
          have h1 : (st.users.countP fun u => u.userId = adminUserId b) = 1 :=
            countP_eq_one_of_pairwise (fun u => u.userId) hidPW hu0mem hu0id
          have h0 : (ext.countP fun u => u.userId = adminUserId b) = 0 := by
            rw [List.countP_eq_zero]
            intro v hv
            simp only [decide_eq_true_eq]
            obtain ⟨c, hct, hcid⟩ := hextid v hv
            rw [hcid]
            exact fun hcb => (hDa c hct).2 hcb.symm
          omega
        · exact ih2 b hbt
      · intro b hb
        rcases List.mem_cons.mp hb with rfl | hbt
        · exact ⟨u0, ih1 u0 hu0mem, hu0em⟩
        · exact ih3 b hbt
      · intro u hu
        obtain ⟨b, hbt, hbid⟩ := hextid u hu
        exact ⟨b, List.mem_cons_of_mem _ hbt, hbid⟩
    · -- the seeded email is absent: a fresh row is inserted
      have hemF : (st.users.any fun v => v.email = adminEmail a) = false := by
        cases h : (st.users.any fun v => v.email = adminEmail a) <;> simp_all
      have hemAll : ∀ u ∈ st.users, u.email ≠ adminEmail a := by
        intro u hu
        have := List.any_eq_false.mp hemF u hu
        simpa using this
      have hidF : (st.users.any fun v => v.userId = adminUserId a) = false := by
        cases h : (st.users.any fun v => v.userId = adminUserId a) with
        | true =>
          obtain ⟨u0, hu0mem, hu0id⟩ : ∃ u ∈ st.users, u.userId = adminUserId a := by
            simpa [List.any_eq_true, decide_eq_true_eq] using h
          exact absurd (hCa.2 u0 hu0mem hu0id) (hemAll u0 hu0mem)
        | false => rfl
      have hidAll : ∀ u ∈ st.users, u.userId ≠ adminUserId a := by
        intro u hu
        have := List.any_eq_false.mp hidF u hu
        simpa using this
      rw [List.foldl_cons, seedOne_insert hemF hidF]
      set newU : User := { seededUser a with id := st.nextUid } with hnewU
      have hnewEmail : newU.email = adminEmail a := rfl
      have hnewId : newU.userId = adminUserId a := rfl
      set st1 : Store := ⟨st.users ++ [newU], st.students, st.nextUid + 1⟩ with hst1
      have hU1 : UniqStore st1 := by
        unfold UniqStore
        rw [hst1]
        rw [List.pairwise_append]
        refine ⟨hU, by simp, ?_⟩
        intro u hu v hv
        rcases List.mem_singleton.mp hv with rfl
        exact ⟨by rw [hnewEmail]; exact hemAll u hu,
               by rw [hnewId]; exact hidAll u hu⟩
      have hC1 : SeedClean st1 t := by
        intro b hb
        constructor
        · intro u hu hub
          rcases List.mem_append.mp hu with hus | hnew
          · exact (hCt b hb).1 u hus hub
          · rcases List.mem_singleton.mp hnew with rfl
            exact absurd (hnewEmail ▸ hub) (hDa b hb).1
        · intro u hu hub
          rcases List.mem_append.mp hu with hus | hnew
          · exact (hCt b hb).2 u hus hub
          · rcases List.mem_singleton.mp hnew with rfl
            exact absurd (hnewId ▸ hub) (hDa b hb).2
      obtain ⟨ih1, ih2, ih3, ih4, ext, hext, hextid⟩ := ih st1 _ hU1 hC1 hDt
      have hsub : ∀ u ∈ st.users, u ∈ st1.users := by
        intro u hu
        rw [hst1]
        exact List.mem_append_left _ hu
      refine ⟨fun u hu => ih1 u (hsub u hu), ?_, ?_, ih4, [newU] ++ ext, ?_, ?_⟩
      · intro b hb
        rcases List.mem_cons.mp hb with rfl | hbt
        · unfold countUserId
          rw [hext, hst1]
          simp only [List.countP_append, List.append_assoc]
          have h0s : (st.users.countP fun u => u.userId = adminUserId b) = 0 := by
            rw [List.countP_eq_zero]
            intro v hv
            simp only [decide_eq_true_eq]
            exact hidAll v hv
          have h1n : ([newU].countP fun u => u.userId = adminUserId b) = 1 := by
            simp [List.countP_cons, seededUser_userId]
          have h0e : (ext.countP fun u => u.userId = adminUserId b) = 0 := by
            rw [List.countP_eq_zero]
            intro v hv
            simp only [decide_eq_true_eq]
            obtain ⟨c, hct, hcid⟩ := hextid v hv
            rw [hcid]
            exact fun hcb => (hDa c hct).2 hcb.symm
          rw [h0s, h1n, h0e]
        · exact ih2 b hbt
      · intro b hb
        rcases List.mem_cons.mp hb with rfl | hbt
        · refine ⟨newU, ih1 newU ?_, hnewEmail⟩
          rw [hst1]
          exact List.mem_append_right _ (List.mem_singleton.mpr rfl)
        · exact ih3 b hbt
      · rw [hext, hst1]
        simp [List.append_assoc]
      · intro u hu
        rcases List.mem_append.mp hu with hnew | hext2
        · rcases List.mem_singleton.mp hnew with rfl
          exact ⟨a, List.mem_cons_self a t, hnewId⟩
        · obtain ⟨b, hbt, hbid⟩ := hextid u hext2
          exact ⟨b, List.mem_cons_of_mem _ hbt, hbid⟩

theorem seedFold_skip_all : ∀ (l : List Admin) (st : Store) (acc : List CreatedAdmin),
    (∀ a ∈ l, (st.users.any fun v => v.email = adminEmail a) = true) →
    (List.foldl seedOne (st, acc) l).1 = st := by
  intro l
  induction l with
  | nil => intro st acc _; rfl
  | cons a t ih =>
    intro st acc h
    rw [List.foldl_cons, seedOne_skip (h a (List.mem_cons_self a t))]
    exact ih st _ (fun b hb => h b (List.mem_cons_of_mem _ hb))

theorem seedStore_fixed {st : Store}
    (h : ∀ a ∈ initialAdmins, ∃ u ∈ st.users, u.email = adminEmail a) :
    seedStore st = st := by
  unfold seedStore seedRun
  exact seedFold_skip_all initialAdmins st []
    (fun a ha => users_any_email_true (h a ha))

theorem seedRuns_fix : ∀ (n : Nat) (st : Store), seedStore st = st → seedRuns n st = st := by
  intro n
  induction n with
  | zero => intro st _; rfl
  | succ n ih =>
    intro st h
    show seedRuns n (seedStore st) = st
    rw [h]
    exact ih st h

/-- Claim C1, amended: for every store state satisfying the table uniqueness
constraints in which any account bearing a seeded email or seeded user
identifier is the matching fully seeded account, any positive number of
sequential seeder runs leaves the store with exactly one account per
well-known seeded identifier (hence exactly seven seeded accounts and no
duplicates), every run after the first changes nothing, and every account
row present before the runs is still present unchanged afterwards (in
particular the stored hashed secret of an already seeded account is never
overwritten). Without the cleanliness restriction the exactly-seven part is
false, see the counterexample. -/
theorem seeder_idempotent_clean (st : Store) (n : Nat)
    (hU : UniqStore st) (hC : SeedClean st initialAdmins) :
    (∀ a ∈ initialAdmins, countUserId (seedRuns (n + 1) st) (adminUserId a) = 1) ∧
    seedRuns (n + 1) st = seedStore st ∧
    (∀ u ∈ st.users, u ∈ (seedRuns (n + 1) st).users) := by
  obtain ⟨h1, h2, h3, _, _⟩ := seedFold_spec initialAdmins st [] hU hC
    (by unfold AdminsDistinct; decide)
  have hpres : ∀ a ∈ initialAdmins, ∃ u ∈ (seedStore st).users, u.email = adminEmail a := h3
  have heq : seedRuns (n + 1) st = seedStore st := by
    show seedRuns n (seedStore st) = seedStore st
    exact seedRuns_fix n _ (seedStore_fixed hpres)
  exact ⟨by rw [heq]; exact h2, heq, by rw [heq]; exact h1⟩

/-- Witness for the amended C1: two runs on the empty store. -/
theorem seeder_idempotent_clean_witness :
    (∀ a ∈ initialAdmins, countUserId (seedRuns 2 emptyStore) (adminUserId a) = 1) ∧
    seedRuns 2 emptyStore = seedStore emptyStore ∧
    (∀ u ∈ emptyStore.users, u ∈ (seedRuns 2 emptyStore).users) :=
  seeder_idempotent_clean emptyStore 1
    (by unfold UniqStore; exact List.Pairwise.nil)
    (by unfold SeedClean; decide)

/-- A store state, reachable through the enrollment workflow before any
seeding, in which a guardian account occupies a seeded email with a
non-seeded user identifier. -/
def stIntruder : Store :=
  ⟨[{ id := 1
    , userId := "MMJS-PARENT-000001"
    , email := "admin1@mothermargaret.ac.ug"
    , phone := "0700000000"
    , password := bhash 10 "w1ldcardpw"
    , firstName := "Parent"
    , lastName := "Account"
    , role := "parent"
    , isActive := true
    , isInitialAdmin := false
    , requiresPasswordChange := false
    , lastLogin := none }], [], 2⟩

/-- Claim C1 as stated is violated: on a store where a non-seeded account
already occupies the email of Admin1, a seeder run skips that roster entry
by `ON CONFLICT (email) DO NOTHING`, so the store afterwards does not
contain 7 accounts with the well-known seeded identifiers (it contains 6). -/
theorem seeder_not_exactly_seven_adversarial :
    ((seedStore stIntruder).users.countP fun u => seededIds.contains u.userId) ≠ 7 := by
  decide

-- ============ Step lemmas for the enrollment request machine ============

theorem parentUser_email (r : Req) : (parentUser r).email = r.inp.parentEmail := rfl

theorem parentUser_userId (r : Req) : (parentUser r).userId = r.parentUserId := rfl

/-- The store after the guardian auto-creation insert. -/
def stAfterParent (st : Store) (r : Req) : Store :=
  ⟨st.users ++ [{ parentUser r with id := st.nextUid }], st.students, st.nextUid + 1⟩

/-- The store after the student insert. -/
def stAfterStudent (st : Store) (r : Req) (pid : Nat) : Store :=
  ⟨st.users, st.students ++ [studentRow r pid], st.nextUid⟩

theorem regStep_finished (st : Store) (r : Req) (x : RegResp) :
    regStep st r (.finished x) = (st, .finished x) := rfl

theorem regStep_lookup_none {st : Store} {r : Req}
    (h : ∀ u ∈ st.users, ¬(u.email = r.inp.parentEmail ∧ u.role = "parent")) :
    regStep st r .lookup = (st, .createParent) := by
  have hf : findParentByEmail st r.inp.parentEmail = none := by
    unfold findParentByEmail
    rw [List.find?_eq_none]
    intro u hu
    simp only [Bool.and_eq_true, decide_eq_true_eq]
    exact h u hu
  simp [regStep, hf]

theorem regStep_lookup_found {st : Store} {r : Req} {p : User}
    (h : findParentByEmail st r.inp.parentEmail = some p) :
    regStep st r .lookup = (st, .insertDependent p.id false) := by
  simp [regStep, h]

theorem regStep_create_ok_bool {st : Store} {r : Req}
    (he : (st.users.any fun v => v.email = (parentUser r).email) = false)
    (hi : (st.users.any fun v => v.userId = (parentUser r).userId) = false) :
    regStep st r .createParent = (stAfterParent st r, .insertDependent st.nextUid true) := by
  simp [regStep, insertUser, he, hi, stAfterParent]

theorem regStep_create_ok {st : Store} {r : Req}
    (he : ∀ u ∈ st.users, u.email ≠ r.inp.parentEmail)
    (hi : ∀ u ∈ st.users, u.userId ≠ r.parentUserId) :
    regStep st r .createParent = (stAfterParent st r, .insertDependent st.nextUid true) :=
  regStep_create_ok_bool (users_any_email_false he) (users_any_userId_false hi)

theorem regStep_create_conflict {st : Store} {r : Req}
    (h : ∃ u ∈ st.users, u.email = r.inp.parentEmail) :
    regStep st r .createParent = (st, .finished conflictResp) := by
  have h1 : (st.users.any fun v => v.email = (parentUser r).email) = true :=
    users_any_email_true h
  simp [regStep, insertUser, h1, conflictResp, regCatch]

theorem regStep_insert_ok {st : Store} {r : Req} {pid : Nat} {created : Bool}
    (hs : ∀ t ∈ st.students, t.studentId ≠ r.studentId)
    (ha : ∀ t ∈ st.students, t.schoolAccountNumber ≠ r.schoolAccountNumber)
    (hp : (st.users.any fun v => v.id = pid) = true) :
    regStep st r (.insertDependent pid created) =
      (stAfterStudent st r pid, .finished (createdResp r pid created)) := by
  have h1 : (st.students.any fun t => t.studentId = (studentRow r pid).studentId) = false := by
    simp only [List.any_eq_false, decide_eq_true_eq]
    exact hs
  have h2 : (st.students.any fun t =>
      t.schoolAccountNumber = (studentRow r pid).schoolAccountNumber) = false := by
    simp only [List.any_eq_false, decide_eq_true_eq]
    exact ha
  have h3 : (st.users.any fun v => v.id = (studentRow r pid).parentId) = true := hp
  simp [regStep, insertStudent, h1, h2, h3, stAfterStudent]

theorem regStep_insert_dup {st : Store} {r : Req} {pid : Nat} {created : Bool}
    (hs : ∃ t ∈ st.students, t.studentId = r.studentId) :
    regStep st r (.insertDependent pid created) = (st, .finished conflictResp) := by
  have h1 : (st.students.any fun t => t.studentId = (studentRow r pid).studentId) = true := by
    simp only [List.any_eq_true, decide_eq_true_eq]
    exact hs
  simp [regStep, insertStudent, h1, conflictResp, regCatch]

-- ===================== Claim C4 =====================

/-- Claim C4: sequential guardian auto-creation. On a store with no account
under the guardian email, a first successful enrollment creates exactly one
new guardian account (appended with identifier `st.nextUid`) and exactly one
dependent record whose guardian reference is that identifier; a second
successful enrollment with the same guardian email and fresh dependent data
creates zero new accounts and exactly one more dependent record, and both
dependents reference the same guardian identifier `st.nextUid`. -/
theorem enroll_guardian_autocreate_seq
    (st : Store) (inp1 inp2 : RegInputs) (env1 env2 : RegEnv)
    (hv1 : validReg inp1 = true) (hv2 : validReg inp2 = true)
    (hsame : inp2.parentEmail = inp1.parentEmail)
    (he : ∀ u ∈ st.users, u.email ≠ inp1.parentEmail)
    (hid : ∀ u ∈ st.users, u.userId ≠ parentUserIdOf env1)
    (hs1 : ∀ t ∈ st.students, t.studentId ≠ studentIdOf inp1.classLevel env1)
    (hs2 : ∀ t ∈ st.students, t.studentId ≠ studentIdOf inp2.classLevel env2)
    (hs12 : studentIdOf inp2.classLevel env2 ≠ studentIdOf inp1.classLevel env1)
    (ha1 : ∀ t ∈ st.students, t.schoolAccountNumber ≠ schoolAccountNumberOf env1)
    (ha2 : ∀ t ∈ st.students, t.schoolAccountNumber ≠ schoolAccountNumberOf env2)
    (ha12 : schoolAccountNumberOf env2 ≠ schoolAccountNumberOf env1) :
    (registerHandler st inp1 env1).2 = createdResp (mkReq inp1 env1) st.nextUid true ∧
    (registerHandler st inp1 env1).1.users =
      st.users ++ [{ parentUser (mkReq inp1 env1) with id := st.nextUid }] ∧
    (registerHandler st inp1 env1).1.students =
      st.students ++ [studentRow (mkReq inp1 env1) st.nextUid] ∧
    (registerHandler (registerHandler st inp1 env1).1 inp2 env2).2 =
      createdResp (mkReq inp2 env2) st.nextUid false ∧
    (registerHandler (registerHandler st inp1 env1).1 inp2 env2).1.users =
      (registerHandler st inp1 env1).1.users ∧
    (registerHandler (registerHandler st inp1 env1).1 inp2 env2).1.students =
      (registerHandler st inp1 env1).1.students ++ [studentRow (mkReq inp2 env2) st.nextUid] ∧
    (studentRow (mkReq inp1 env1) st.nextUid).parentId =
      (studentRow (mkReq inp2 env2) st.nextUid).parentId := by
  have hr1inp : (mkReq inp1 env1).inp = inp1 := rfl
  have hr1sid : (mkReq inp1 env1).studentId = studentIdOf inp1.classLevel env1 := rfl
  have e1 : regStep st (mkReq inp1 env1) .lookup = (st, .createParent) :=
    regStep_lookup_none (fun u hu hx => he u hu hx.1)
  have e2 : regStep st (mkReq inp1 env1) .createParent =
      (stAfterParent st (mkReq inp1 env1), .insertDependent st.nextUid true) :=
    regStep_create_ok he hid
  have e3 : regStep (stAfterParent st (mkReq inp1 env1)) (mkReq inp1 env1)
        (.insertDependent st.nextUid true) =
      (stAfterStudent (stAfterParent st (mkReq inp1 env1)) (mkReq inp1 env1) st.nextUid,
       .finished (createdResp (mkReq inp1 env1) st.nextUid true)) := by
    apply regStep_insert_ok
    · exact hs1
    · exact ha1
    · simp [stAfterParent]
  have hfirst : registerHandler st inp1 env1 =
      (stAfterStudent (stAfterParent st (mkReq inp1 env1)) (mkReq inp1 env1) st.nextUid,
       createdResp (mkReq inp1 env1) st.nextUid true) := by
    unfold registerHandler
    simp only [hv1, if_true, regStepN, e1, e2, e3]
  set r1 : Req := mkReq inp1 env1 with hr1
  set r2 : Req := mkReq inp2 env2 with hr2
  set newParent : User := { parentUser r1 with id := st.nextUid } with hnp
  set st1 : Store := stAfterStudent (stAfterParent st r1) r1 st.nextUid with hst1
  have hst1users : st1.users = st.users ++ [newParent] := rfl
  have hst1students : st1.students = st.students ++ [studentRow r1 st.nextUid] := rfl
  have hfind : findParentByEmail st1 r2.inp.parentEmail = some newParent := by
    unfold findParentByEmail
    rw [hst1users]
    rw [find?_append_left_none]
    · have hmatch : (newParent.email = r2.inp.parentEmail && newParent.role = "parent") = true := by
        have hnpe : newParent.email = r2.inp.parentEmail := by
          show r1.inp.parentEmail = r2.inp.parentEmail
          exact hsame.symm
        simp only [Bool.and_eq_true, decide_eq_true_eq]
        exact ⟨hnpe, rfl⟩
      simp [List.find?_cons, hmatch]
    · rw [List.find?_eq_none]
      intro u hu
      simp only [Bool.and_eq_true, decide_eq_true_eq, not_and]
      intro hue
      exact absurd (hsame ▸ hue) (he u hu)
  have e4 : regStep st1 r2 .lookup = (st1, .insertDependent st.nextUid false) := by
    have := regStep_lookup_found hfind
    simpa using this
  have e5 : regStep st1 r2 (.insertDependent st.nextUid false) =
      (stAfterStudent st1 r2 st.nextUid,
       .finished (createdResp r2 st.nextUid false)) := by
    apply regStep_insert_ok
    · rw [hst1students]
      intro t ht
      rcases List.mem_append.mp ht with hts | htn
      · exact hs2 t hts
      · rcases List.mem_singleton.mp htn with rfl
        show (studentRow r1 st.nextUid).studentId ≠ r2.studentId
        exact fun hcontra => hs12 hcontra.symm
    · rw [hst1students]
      intro t ht
      rcases List.mem_append.mp ht with hts | htn
      · exact ha2 t hts
      · rcases List.mem_singleton.mp htn with rfl
        show (studentRow r1 st.nextUid).schoolAccountNumber ≠ r2.schoolAccountNumber
        exact fun hcontra => ha12 hcontra.symm
    · rw [hst1users]
      simp [hnp]
  have hsecond : registerHandler st1 inp2 env2 =
      (stAfterStudent st1 r2 st.nextUid, createdResp r2 st.nextUid false) := by
    unfold registerHandler
    simp only [hv2, if_true, regStepN, e4, e5, regStep_finished]
  rw [hfirst]
  refine ⟨rfl, rfl, rfl, ?_, ?_, ?_, rfl⟩
  · show (registerHandler st1 inp2 env2).2 = createdResp r2 st.nextUid false
    rw [hsecond]
  · show (registerHandler st1 inp2 env2).1.users = st1.users
    rw [hsecond]
    rfl
  · show (registerHandler st1 inp2 env2).1.students =
      st1.students ++ [studentRow r2 st.nextUid]
    rw [hsecond]
    rfl

/-- Concrete first enrollment request for the C4 witness. -/
def regInpW1 : RegInputs :=
  ⟨"Ada", "Kintu", "2019-01-01", "female", "P1", "guardian@mukono.ug", "0700111222", "Namuyenje"⟩

def regEnvW1 : RegEnv := ⟨2026, 345, "11112222", "333444", "temporary1"⟩

/-- Concrete second enrollment request (same guardian email) for the C4 witness. -/
def regInpW2 : RegInputs :=
  ⟨"Ben", "Kintu", "2020-02-02", "male", "P2", "guardian@mukono.ug", "0700111222", "Namuyenje"⟩

def regEnvW2 : RegEnv := ⟨2026, 678, "55556666", "777888", "temporary2"⟩

/-- Witness for C4: two concrete enrollments on the empty store, the first
creating the guardian, the second reusing the same guardian identifier. -/
theorem enroll_guardian_autocreate_seq_witness :
    (registerHandler emptyStore regInpW1 regEnvW1).2 =
      createdResp (mkReq regInpW1 regEnvW1) emptyStore.nextUid true ∧
    (registerHandler (registerHandler emptyStore regInpW1 regEnvW1).1 regInpW2 regEnvW2).2 =
      createdResp (mkReq regInpW2 regEnvW2) emptyStore.nextUid false ∧
    (registerHandler (registerHandler emptyStore regInpW1 regEnvW1).1 regInpW2 regEnvW2).1.users =
      (registerHandler emptyStore regInpW1 regEnvW1).1.users := by
  obtain ⟨h1, _, _, h4, h5, _, _⟩ :=
    enroll_guardian_autocreate_seq emptyStore regInpW1 regInpW2 regEnvW1 regEnvW2
      (by decide) (by decide) (by decide) (by decide) (by decide) (by decide)
      (by decide) (by decide) (by decide) (by decide) (by decide)
  exact ⟨h1, h4, h5⟩

-- ===================== Claim C10 =====================

theorem email_unique_role {l : List User} {e : String}
    (hpw : l.Pairwise (fun u v => u.email ≠ v.email))
    {u0 : User} (h0 : u0 ∈ l) (h0e : u0.email = e) (h0r : u0.role ≠ "parent") :
    ∀ u ∈ l, ¬(u.email = e ∧ u.role = "parent") := by
  induction l with
  | nil => cases h0
  | cons a t ih =>
    have ha := (List.pairwise_cons.mp hpw).1
    have ht := (List.pairwise_cons.mp hpw).2
    intro u hu
    rcases List.mem_cons.mp h0 with rfl | h0t
    · rcases List.mem_cons.mp hu with rfl | hut
      · exact fun hx => h0r hx.2
      · exact fun hx => (ha u hut) (h0e.trans hx.1.symm)
    · rcases List.mem_cons.mp hu with rfl | hut
      · exact fun hx => (ha u0 h0t) (hx.1.trans h0e.symm)
      · exact ih ht h0t u hut

/-- Claim C10: when the guardian email already belongs to a stored account
whose role is not parent, the role-filtered guardian lookup finds nothing,
the attempted insert of a new parent account violates email uniqueness, and
the whole request fails with the handler's 409 error while the store is
returned unchanged: no account and no dependent record is created. -/
theorem enroll_nonparent_email_fails_cleanly
    (st : Store) (inp : RegInputs) (env : RegEnv)
    (hv : validReg inp = true)
    (hpw : st.users.Pairwise (fun u v => u.email ≠ v.email))
    (u0 : User) (h0 : u0 ∈ st.users) (h0e : u0.email = inp.parentEmail)
    (h0r : u0.role ≠ "parent") :
    registerHandler st inp env =
      (st, RegResp.err 409 "Student ID already exists. Please try again.") := by
  have e1 : regStep st (mkReq inp env) .lookup = (st, .createParent) :=
    regStep_lookup_none (email_unique_role hpw h0 h0e h0r)
  have e2 : regStep st (mkReq inp env) .createParent = (st, .finished conflictResp) :=
    regStep_create_conflict ⟨u0, h0, h0e⟩
  unfold registerHandler
  simp only [hv, if_true, regStepN, e1, e2, regStep_finished]
  rfl

/-- A store whose only account is an administrator occupying the email later
submitted as a guardian email. -/
def stAdminEmail : Store :=
  ⟨[{ id := 1
    , userId := "MMJS-Admin1"
    , email := "admin1@mothermargaret.ac.ug"
    , phone := ""
    , password := bhash 10 "****$****#+1"
    , firstName := "Admin"
    , lastName := "Admin1"
    , role := "admin"
    , isActive := true
    , isInitialAdmin := true
    , requiresPasswordChange := true
    , lastLogin := none }], [], 2⟩

def regInpAdminEmail : RegInputs :=
  ⟨"Ada", "Kintu", "2019-01-01", "female", "P1", "admin1@mothermargaret.ac.ug",
   "0700111222", "Namuyenje"⟩

/-- Witness for C10: enrolling against an admin-held guardian email fails
with 409 and leaves the store unchanged. -/
theorem enroll_nonparent_email_fails_cleanly_witness :
    registerHandler stAdminEmail regInpAdminEmail regEnvW1 =
      (stAdminEmail, RegResp.err 409 "Student ID already exists. Please try again.") :=
  enroll_nonparent_email_fails_cleanly stAdminEmail regInpAdminEmail regEnvW1
    (by decide) (by decide)
    { id := 1
    , userId := "MMJS-Admin1"
    , email := "admin1@mothermargaret.ac.ug"
    , phone := ""
    , password := bhash 10 "****$****#+1"
    , firstName := "Admin"
    , lastName := "Admin1"
    , role := "admin"
    , isActive := true
    , isInitialAdmin := true
    , requiresPasswordChange := true
    , lastLogin := none }
    (by decide) (by decide) (by decide)

-- ===================== Claim C7 =====================

/-- Claim C7, amended: an enrollment-identifier collision is not absorbed by
regeneration; it is surfaced to the caller. Whenever the generated student
identifier already names a stored dependent record, the handler returns the
409 response asking the caller to try again (there is no internal retry),
and no dependent record is added. When the collision is hit after a new
guardian account was inserted, that account persists, so only the dependent
table is guaranteed unchanged. -/
theorem studentid_collision_returns_409
    (st : Store) (inp : RegInputs) (env : RegEnv)
    (hv : validReg inp = true)
    (hcol : ∃ t ∈ st.students, t.studentId = studentIdOf inp.classLevel env) :
    (registerHandler st inp env).2 =
      RegResp.err 409 "Student ID already exists. Please try again." ∧
    (registerHandler st inp env).1.students = st.students := by
  have hcol' : ∃ t ∈ st.students, t.studentId = (mkReq inp env).studentId := hcol
  unfold registerHandler
  simp only [hv, if_true]
  cases hfind : findParentByEmail st (mkReq inp env).inp.parentEmail with
  | some p =>
    have e1 : regStep st (mkReq inp env) .lookup = (st, .insertDependent p.id false) :=
      regStep_lookup_found hfind
    have e2 : regStep st (mkReq inp env) (.insertDependent p.id false) =
        (st, .finished conflictResp) := regStep_insert_dup hcol'
    simp only [regStepN, e1, e2, regStep_finished]
    exact ⟨rfl, by trivial⟩
  | none =>
    have e1 : regStep st (mkReq inp env) .lookup = (st, .createParent) := by
      simp [regStep, hfind]
    by_cases hea : (st.users.any fun v => v.email = (parentUser (mkReq inp env)).email) = true
    · have e2 : regStep st (mkReq inp env) .createParent = (st, .finished conflictResp) :=
        regStep_create_conflict
          (by simpa [List.any_eq_true, decide_eq_true_eq] using hea)
      simp only [regStepN, e1, e2, regStep_finished]
      exact ⟨rfl, by trivial⟩
    · have heaF : (st.users.any fun v => v.email = (parentUser (mkReq inp env)).email) = false := by
        cases h : (st.users.any fun v => v.email = (parentUser (mkReq inp env)).email) <;> simp_all
      by_cases hia : (st.users.any fun v => v.userId = (parentUser (mkReq inp env)).userId) = true
      · have e2 : regStep st (mkReq inp env) .createParent =
            (st, .finished (regCatch (.duplicateKey "users_user_id_key"))) := by
          simp [regStep, insertUser, heaF, hia]
        simp only [regStepN, e1, e2, regStep_finished]
        exact ⟨rfl, by trivial⟩
      · have hiaF : (st.users.any fun v => v.userId = (parentUser (mkReq inp env)).userId) = false := by
          cases h : (st.users.any fun v => v.userId = (parentUser (mkReq inp env)).userId) <;> simp_all
        have e2 : regStep st (mkReq inp env) .createParent =
            (stAfterParent st (mkReq inp env), .insertDependent st.nextUid true) :=
          regStep_create_ok_bool heaF hiaF
        have e3 : regStep (stAfterParent st (mkReq inp env)) (mkReq inp env)
              (.insertDependent st.nextUid true) =
            (stAfterParent st (mkReq inp env), .finished conflictResp) :=
          regStep_insert_dup hcol'
        simp only [regStepN, e1, e2, e3, regStep_finished]
        exact ⟨rfl, by trivial⟩

/-- A store holding one guardian account and one dependent record whose
identifier equals the one the next request will generate. -/
def stCollide : Store :=
  ⟨[{ id := 1
    , userId := "MMJS-PARENT-900001"
    , email := "guardian@mukono.ug"
    , phone := "0700111222"
    , password := bhash 10 "temporary0"
    , firstName := "Parent"
    , lastName := "Account"
    , role := "parent"
    , isActive := true
    , isInitialAdmin := false
    , requiresPasswordChange := false
    , lastLogin := none }],
   [⟨"MMJS-P1-2026-345", "Old", "Kid", "2018-05-05", "male", "P1", 1,
     "MMJS-ACC-00000000", "Mukono"⟩], 2⟩

/-- Claim C7 as stated is violated: with a colliding generated identifier the
caller does not receive a successful EnrollmentResult; the handler answers
409 and the dependent table is unchanged, with no regeneration or retry. -/
theorem studentid_collision_visible_409_cx :
    (registerHandler stCollide regInpW1 regEnvW1).2 =
      RegResp.err 409 "Student ID already exists. Please try again." ∧
    (registerHandler stCollide regInpW1 regEnvW1).1.students.length = 1 :=
  ⟨by decide, by decide⟩

/-- Witness for the amended C7 at the concrete colliding store. -/
theorem studentid_collision_returns_409_witness :
    (registerHandler stCollide regInpW1 regEnvW1).2 =
      RegResp.err 409 "Student ID already exists. Please try again." ∧
    (registerHandler stCollide regInpW1 regEnvW1).1.students = stCollide.students :=
  studentid_collision_returns_409 stCollide regInpW1 regEnvW1 (by decide)
    ⟨⟨"MMJS-P1-2026-345", "Old", "Kid", "2018-05-05", "male", "P1", 1,
      "MMJS-ACC-00000000", "Mukono"⟩, by decide, by decide⟩

-- ============ Claim C2: two concurrent enrollments, one email ============

/-- The store after one request created both its guardian and its dependent. -/
def stAfterBoth (st : Store) (r : Req) : Store :=
  stAfterStudent (stAfterParent st r) r st.nextUid

/-- The 201 response of the request that won the race. -/
def winResp (st : Store) (r : Req) : RegResp := createdResp r st.nextUid true

/-- Freshness assumptions for two requests racing to create the guardian
account for one email: same normalized email, no account under that email
yet, and generated identifiers fresh for the initial store. -/
def RaceHyp (st : Store) (r1 r2 : Req) : Prop :=
  r2.inp.parentEmail = r1.inp.parentEmail ∧
  (∀ u ∈ st.users, u.email ≠ r1.inp.parentEmail) ∧
  (∀ u ∈ st.users, u.userId ≠ r1.parentUserId) ∧
  (∀ u ∈ st.users, u.userId ≠ r2.parentUserId) ∧
  (∀ t ∈ st.students, t.studentId ≠ r1.studentId) ∧
  (∀ t ∈ st.students, t.studentId ≠ r2.studentId) ∧
  (∀ t ∈ st.students, t.schoolAccountNumber ≠ r1.schoolAccountNumber) ∧
  (∀ t ∈ st.students, t.schoolAccountNumber ≠ r2.schoolAccountNumber)

/-- Invariant of the race after both lookups have missed: either both
requests are still about to insert the guardian, or one of them has won the
insert (and possibly completed its dependent) while the other is pending or
has received the conflict response. -/
def RaceInv (st : Store) (r1 r2 : Req) (c : Config) : Prop :=
  c = ⟨st, .createParent, .createParent⟩
  ∨ c = ⟨stAfterParent st r1, .insertDependent st.nextUid true, .createParent⟩
  ∨ c = ⟨stAfterParent st r1, .insertDependent st.nextUid true, .finished conflictResp⟩
  ∨ c = ⟨stAfterBoth st r1, .finished (winResp st r1), .createParent⟩
  ∨ c = ⟨stAfterBoth st r1, .finished (winResp st r1), .finished conflictResp⟩
  ∨ c = ⟨stAfterParent st r2, .createParent, .insertDependent st.nextUid true⟩
  ∨ c = ⟨stAfterParent st r2, .finished conflictResp, .insertDependent st.nextUid true⟩
  ∨ c = ⟨stAfterBoth st r2, .createParent, .finished (winResp st r2)⟩
  ∨ c = ⟨stAfterBoth st r2, .finished conflictResp, .finished (winResp st r2)⟩

theorem raceInv_step (st : Store) (r1 r2 : Req) (h : RaceHyp st r1 r2)
    (c : Config) (hc : RaceInv st r1 r2 c) (b : Bool) :
    RaceInv st r1 r2 (schedStep r1 r2 c b) := by
  obtain ⟨h1, he, hi1, hi2, hs1, hs2, ha1, ha2⟩ := h
  have he2 : ∀ u ∈ st.users, u.email ≠ r2.inp.parentEmail := by
    rw [h1]
    exact he
  have eW1 : regStep st r1 .createParent =
      (stAfterParent st r1, .insertDependent st.nextUid true) :=
    regStep_create_ok he hi1
  have eW2 : regStep st r2 .createParent =
      (stAfterParent st r2, .insertDependent st.nextUid true) :=
    regStep_create_ok he2 hi2
  have memP1 : ∃ u ∈ (stAfterParent st r1).users, u.email = r2.inp.parentEmail :=
    ⟨{ parentUser r1 with id := st.nextUid }, by simp [stAfterParent],
     show r1.inp.parentEmail = r2.inp.parentEmail from h1.symm⟩
  have memP2 : ∃ u ∈ (stAfterParent st r2).users, u.email = r1.inp.parentEmail :=
    ⟨{ parentUser r2 with id := st.nextUid }, by simp [stAfterParent],
     show r2.inp.parentEmail = r1.inp.parentEmail from h1⟩
  have eL2a : regStep (stAfterParent st r1) r2 .createParent =
      (stAfterParent st r1, .finished conflictResp) :=
    regStep_create_conflict memP1
  have eL2b : regStep (stAfterBoth st r1) r2 .createParent =
      (stAfterBoth st r1, .finished conflictResp) :=
    regStep_create_conflict memP1
  have eL1a : regStep (stAfterParent st r2) r1 .createParent =
      (stAfterParent st r2, .finished conflictResp) :=
    regStep_create_conflict memP2
  have eL1b : regStep (stAfterBoth st r2) r1 .createParent =
      (stAfterBoth st r2, .finished conflictResp) :=
    regStep_create_conflict memP2
  have eD1 : regStep (stAfterParent st r1) r1 (.insertDependent st.nextUid true) =
      (stAfterBoth st r1, .finished (winResp st r1)) := by
    apply regStep_insert_ok
    · exact hs1
    · exact ha1
    · simp [stAfterParent]
  have eD2 : regStep (stAfterParent st r2) r2 (.insertDependent st.nextUid true) =
      (stAfterBoth st r2, .finished (winResp st r2)) := by
    apply regStep_insert_ok
    · exact hs2
    · exact ha2
    · simp [stAfterParent]
  rcases hc with hc | hc | hc | hc | hc | hc | hc | hc | hc <;> subst hc <;> cases b <;>
    simp only [schedStep, if_true, if_false, Bool.false_eq_true, ite_true, ite_false,
      eW1, eW2, eL2a, eL2b, eL1a, eL1b, eD1, eD2, regStep_finished, RaceInv] <;>
    tauto

theorem raceInv_run (st : Store) (r1 r2 : Req) (h : RaceHyp st r1 r2) :
    ∀ (sched : List Bool) (c : Config), RaceInv st r1 r2 c →
      RaceInv st r1 r2 (schedRun r1 r2 c sched) := by
  intro sched
  induction sched with
  | nil => intro c hc; exact hc
  | cons b rest ih =>
    intro c hc
    exact ih _ (raceInv_step st r1 r2 h c hc b)

theorem race_start (st : Store) (r1 r2 : Req) (h : RaceHyp st r1 r2) (b : Bool) :
    schedRun r1 r2 ⟨st, .lookup, .lookup⟩ [b, !b] =
      ⟨st, .createParent, .createParent⟩ := by
  obtain ⟨h1, he, _⟩ := h
  have l1 : regStep st r1 .lookup = (st, .createParent) :=
    regStep_lookup_none (fun u hu hx => he u hu hx.1)
  have l2 : regStep st r2 .lookup = (st, .createParent) :=
    regStep_lookup_none (fun u hu hx => he u hu (h1 ▸ hx.1))
  cases b <;> simp [schedRun, schedStep, l1, l2]

theorem countEmail_stAfterBoth {st : Store} {r : Req} {e : String}
    (hz : ∀ u ∈ st.users, u.email ≠ e) (hre : r.inp.parentEmail = e) :
    countEmail (stAfterBoth st r) e = 1 := by
  unfold countEmail
  show List.countP _ (st.users ++ [{ parentUser r with id := st.nextUid }]) = 1
  rw [List.countP_append, countP_email_eq_zero hz]
  simp [List.countP_cons, parentUser_email, hre]

/-- Claim C2: for two concurrent enrollment requests racing to create the
guardian account for one normalized email (both lookups run before either
insert, expressed by the schedule starting with one step of each request),
whenever the schedule runs both requests to completion, exactly one request
finishes with the 201 created response and the other with the typed 409
conflict response produced by the duplicate-key catch (neither crashes nor
returns a generic 500 failure), and the final store contains exactly one
account under that email. -/
theorem register_race_one_success_one_conflict
    (st : Store) (r1 r2 : Req) (b : Bool) (rest : List Bool)
    (h1 : r2.inp.parentEmail = r1.inp.parentEmail)
    (he : ∀ u ∈ st.users, u.email ≠ r1.inp.parentEmail)
    (hi1 : ∀ u ∈ st.users, u.userId ≠ r1.parentUserId)
    (hi2 : ∀ u ∈ st.users, u.userId ≠ r2.parentUserId)
    (hs1 : ∀ t ∈ st.students, t.studentId ≠ r1.studentId)
    (hs2 : ∀ t ∈ st.students, t.studentId ≠ r2.studentId)
    (ha1 : ∀ t ∈ st.students, t.schoolAccountNumber ≠ r1.schoolAccountNumber)
    (ha2 : ∀ t ∈ st.students, t.schoolAccountNumber ≠ r2.schoolAccountNumber)
    (hdone1 : ∃ x, (schedRun r1 r2 ⟨st, .lookup, .lookup⟩ (b :: (!b) :: rest)).ph1 =
      .finished x)
    (hdone2 : ∃ y, (schedRun r1 r2 ⟨st, .lookup, .lookup⟩ (b :: (!b) :: rest)).ph2 =
      .finished y) :
    (((schedRun r1 r2 ⟨st, .lookup, .lookup⟩ (b :: (!b) :: rest)).ph1 =
        .finished (createdResp r1 st.nextUid true) ∧
      (schedRun r1 r2 ⟨st, .lookup, .lookup⟩ (b :: (!b) :: rest)).ph2 =
        .finished conflictResp) ∨
     ((schedRun r1 r2 ⟨st, .lookup, .lookup⟩ (b :: (!b) :: rest)).ph1 =
        .finished conflictResp ∧
      (schedRun r1 r2 ⟨st, .lookup, .lookup⟩ (b :: (!b) :: rest)).ph2 =
        .finished (createdResp r2 st.nextUid true))) ∧
    countEmail (schedRun r1 r2 ⟨st, .lookup, .lookup⟩ (b :: (!b) :: rest)).store
      r1.inp.parentEmail = 1 := by
  have h : RaceHyp st r1 r2 := ⟨h1, he, hi1, hi2, hs1, hs2, ha1, ha2⟩
  have hsplit : schedRun r1 r2 ⟨st, .lookup, .lookup⟩ (b :: (!b) :: rest) =
      schedRun r1 r2 ⟨st, .createParent, .createParent⟩ rest := by
    have hstart := race_start st r1 r2 h b
    unfold schedRun at hstart ⊢
    simp only [List.foldl_cons, List.foldl_nil] at hstart ⊢
    rw [hstart]
  rw [hsplit] at hdone1 hdone2 ⊢
  obtain ⟨x, hx⟩ := hdone1
  obtain ⟨y, hy⟩ := hdone2
  have hinv := raceInv_run st r1 r2 h rest ⟨st, .createParent, .createParent⟩ (Or.inl rfl)
  rcases hinv with hc | hc | hc | hc | hc | hc | hc | hc | hc
  · rw [hc] at hx
    simp at hx
  · rw [hc] at hy
    simp at hy
  · rw [hc] at hx
    simp at hx
  · rw [hc] at hy
    simp at hy
  · rw [hc]
    exact ⟨Or.inl ⟨rfl, rfl⟩, countEmail_stAfterBoth he rfl⟩
  · rw [hc] at hx
    simp at hx
  · rw [hc] at hy
    simp at hy
  · rw [hc] at hx
    simp at hx
  · rw [hc]
    exact ⟨Or.inr ⟨rfl, rfl⟩, countEmail_stAfterBoth he h1⟩

/-- Witness for C2: a concrete race on the empty store under the schedule
where the first request wins the guardian insert. -/
theorem register_race_one_success_one_conflict_witness :
    (((schedRun (mkReq regInpW1 regEnvW1) (mkReq regInpW2 regEnvW2)
        ⟨emptyStore, .lookup, .lookup⟩ (true :: (!true) :: [true, true, false])).ph1 =
        .finished (createdResp (mkReq regInpW1 regEnvW1) emptyStore.nextUid true) ∧
      (schedRun (mkReq regInpW1 regEnvW1) (mkReq regInpW2 regEnvW2)
        ⟨emptyStore, .lookup, .lookup⟩ (true :: (!true) :: [true, true, false])).ph2 =
        .finished conflictResp) ∨
     ((schedRun (mkReq regInpW1 regEnvW1) (mkReq regInpW2 regEnvW2)
        ⟨emptyStore, .lookup, .lookup⟩ (true :: (!true) :: [true, true, false])).ph1 =
        .finished conflictResp ∧
      (schedRun (mkReq regInpW1 regEnvW1) (mkReq regInpW2 regEnvW2)
        ⟨emptyStore, .lookup, .lookup⟩ (true :: (!true) :: [true, true, false])).ph2 =
        .finished (createdResp (mkReq regInpW2 regEnvW2) emptyStore.nextUid true))) ∧
    countEmail (schedRun (mkReq regInpW1 regEnvW1) (mkReq regInpW2 regEnvW2)
        ⟨emptyStore, .lookup, .lookup⟩ (true :: (!true) :: [true, true, false])).store
      (mkReq regInpW1 regEnvW1).inp.parentEmail = 1 :=
  register_race_one_success_one_conflict emptyStore
    (mkReq regInpW1 regEnvW1) (mkReq regInpW2 regEnvW2) true [true, true, false]
    (by decide) (by decide) (by decide) (by decide) (by decide) (by decide)
    (by decide) (by decide)
    ⟨createdResp (mkReq regInpW1 regEnvW1) emptyStore.nextUid true, by decide⟩
    ⟨conflictResp, by decide⟩

-- ===================== Claim C3 =====================

/-- Claim C3 as stated is violated: in a concrete race where the losing
enrollment request finds no guardian account at lookup time and its
subsequent guardian insert reports the email uniqueness conflict, the
workflow does not re-read the now-existing account and does not complete the
enrollment; the loser finishes with the 409 error response and only the
winner's dependent record exists. -/
theorem guardian_conflict_not_reread_cx :
    (schedRun (mkReq regInpW1 regEnvW1) (mkReq regInpW2 regEnvW2)
        ⟨emptyStore, .lookup, .lookup⟩ [true, false, true, true, false]).ph2 =
      .finished (RegResp.err 409 "Student ID already exists. Please try again.") ∧
    (schedRun (mkReq regInpW1 regEnvW1) (mkReq regInpW2 regEnvW2)
        ⟨emptyStore, .lookup, .lookup⟩ [true, false, true, true, false]).store.students.length
      = 1 :=
  ⟨by decide, by decide⟩

/-- Claim C3, amended: a duplicate-key conflict on guardian-account creation
is caught rather than propagated as an uncaught exception, but it is not
recovered from: the handler's catch block maps it to a typed 409 conflict
response that ends the request immediately, with the store unchanged by
that step; the workflow performs no re-read of the now-existing account and
the enrollment does not complete. -/
theorem guardian_conflict_returns_409 (st : Store) (r : Req)
    (h : ∃ u ∈ st.users, u.email = r.inp.parentEmail) :
    regStep st r .createParent =
      (st, .finished (RegResp.err 409 "Student ID already exists. Please try again.")) := by
  have hconf := regStep_create_conflict h
  simpa [conflictResp, regCatch] using hconf

/-- Witness for the amended C3: the guardian email is already held by a
stored account, so the create step finishes the request with the 409
response and leaves the store unchanged. -/
theorem guardian_conflict_returns_409_witness :
    regStep stAdminEmail (mkReq regInpAdminEmail regEnvW1) .createParent =
      (stAdminEmail,
       .finished (RegResp.err 409 "Student ID already exists. Please try again.")) :=
  guardian_conflict_returns_409 stAdminEmail (mkReq regInpAdminEmail regEnvW1)
    ⟨{ id := 1
     , userId := "MMJS-Admin1"
     , email := "admin1@mothermargaret.ac.ug"
     , phone := ""
     , password := bhash 10 "****$****#+1"
     , firstName := "Admin"
     , lastName := "Admin1"
     , role := "admin"
     , isActive := true
     , isInitialAdmin := true
     , requiresPasswordChange := true
     , lastLogin := none }, by decide, by decide⟩
